import Mathlib

/-!
Verification development for the AG-UI / CrewAI restaurant finder.

The frontend data model and the feedback widgets are embedded from the
TypeScript sources under ag-ui-restaurant-frontend.  The backend run
controller, patch engine and session registry exist in this repository only
as documentation (docs/human_in_the_loop_guide.md and the READMEs); where a
definition embeds that missing backend it is modelled from the written
specification and its doc comment says so explicitly.
-/

/-- Phase values of the agent state, embedded from the union type of
status.phase in ag-ui-restaurant-frontend/src/lib/restaurant-types.ts
(lines 15-28). -/
inductive Phase where
  | idle
  | initialized
  | searching_restaurants
  | restaurants_found
  | presenting_recommendations
  | await_feedback
  | processing_feedback
  | completed
  | feedback_completed
deriving DecidableEq

/-- Wire (string) name of each phase, exactly the string literals of the
union type in restaurant-types.ts. -/
def phaseWire : Phase → String
  | .idle => "idle"
  | .initialized => "initialized"
  | .searching_restaurants => "searching_restaurants"
  | .restaurants_found => "restaurants_found"
  | .presenting_recommendations => "presenting_recommendations"
  | .await_feedback => "await_feedback"
  | .processing_feedback => "processing_feedback"
  | .completed => "completed"
  | .feedback_completed => "feedback_completed"

/-- The phase names that section 4.1 of the specification lists for the run
controller state machine (idle, initialized, searching, found, recommending,
await_feedback, processing_feedback, completed, feedback_completed, error). -/
def spec41PhaseNames : List String :=
  ["idle", "initialized", "searching", "found", "recommending",
   "await_feedback", "processing_feedback", "completed",
   "feedback_completed", "error"]

/-- The phase names the code actually declares, in the order of the union
type in restaurant-types.ts. -/
def codePhaseNames : List String :=
  ["idle", "initialized", "searching_restaurants", "restaurants_found",
   "presenting_recommendations", "await_feedback", "processing_feedback",
   "completed", "feedback_completed"]

/-- The transition edges of the run controller state machine of section 4.1,
written over the phase names the code declares: the linear chain
idle - initialized - searching_restaurants - restaurants_found -
presenting_recommendations - await_feedback - processing_feedback -
completed, with feedback_completed as a parallel terminal reachable only
from processing_feedback. -/
def phaseEdges : List (Phase × Phase) :=
  [(.idle, .initialized),
   (.initialized, .searching_restaurants),
   (.searching_restaurants, .restaurants_found),
   (.restaurants_found, .presenting_recommendations),
   (.presenting_recommendations, .await_feedback),
   (.await_feedback, .processing_feedback),
   (.processing_feedback, .completed),
   (.processing_feedback, .feedback_completed)]

/-- Modelled from the spec: the phase sequences a run of the missing backend
run controller (restaurant_finder_agent/api.py and agui_crew.py, not in this
repository snapshot) can emit, per section 4.1 and the step-by-step workflow
of docs/human_in_the_loop_guide.md.  A fresh run walks the chain up to
await_feedback and suspends; a resume run starts at processing_feedback and
ends at completed or feedback_completed; the full conversation concatenates
the two. -/
def modelTraces : List (List Phase) :=
  [[.idle, .initialized, .searching_restaurants, .restaurants_found,
    .presenting_recommendations, .await_feedback],
   [.processing_feedback, .completed],
   [.processing_feedback, .feedback_completed],
   [.idle, .initialized, .searching_restaurants, .restaurants_found,
    .presenting_recommendations, .await_feedback, .processing_feedback,
    .completed],
   [.idle, .initialized, .searching_restaurants, .restaurants_found,
    .presenting_recommendations, .await_feedback, .processing_feedback,
    .feedback_completed]]

/-- Search stage values of the agent state, embedded from the union type of
search.stage in restaurant-types.ts (lines 32-39). -/
inductive Stage where
  | not_started
  | searching
  | found
  | analyzing
  | recommending
  | feedback
  | complete
deriving DecidableEq

/-- Restaurant record, embedded from the Restaurant type in
restaurant-types.ts (lines 2-11). -/
structure Restaurant where
  id : String
  name : String
  cuisine : Option String := none
  address : Option String := none
  priceRange : Option String := none
  rating : Option String := none
  url : Option String := none
  imageUrl : Option String := none
deriving DecidableEq

/-- The status section of RestaurantFinderAgentState in restaurant-types.ts. -/
structure StatusInfo where
  phase : Phase
  error : Option String
  timestamp : Option String := none
deriving DecidableEq

/-- The search section of RestaurantFinderAgentState in restaurant-types.ts.
The optional restaurants array is embedded as a plain list, with the empty
list standing for an absent or empty array. -/
structure SearchInfo where
  query : String
  location : String
  stage : Stage
  restaurants_found : Nat
  restaurants : List Restaurant
  completed : Bool
deriving DecidableEq

/-- The processing section of RestaurantFinderAgentState in
restaurant-types.ts.  The progress ratio is embedded as a rational. -/
structure ProcessingInfo where
  progress : ℚ
  phases : List String
  currentPhase : String
  recommendations : Option String
  completed : Bool
  inProgress : Bool
  feedback : Option String := none
deriving DecidableEq

/-- The ui section of RestaurantFinderAgentState in restaurant-types.ts. -/
structure UiInfo where
  showRestaurants : Bool
  showProgress : Bool
  activeTab : String
  showFeedbackPrompt : Option Bool := none
  feedbackOptions : Option (List String) := none
deriving DecidableEq

/-- The full agent state document, RestaurantFinderAgentState in
restaurant-types.ts (lines 14-60). -/
structure RestaurantFinderAgentState where
  status : StatusInfo
  search : SearchInfo
  processing : ProcessingInfo
  ui : UiInfo
deriving DecidableEq

/-- The initial feedback options of the ui section, from the initialState of
useCoAgent in RestaurantFinder.tsx (lines 51-57). -/
def initialFeedbackOptions : List String :=
  ["Thanks for the recommendations! These look perfect.",
   "Can you suggest more restaurants with different cuisines?",
   "I\x27m looking for more budget-friendly dining options.",
   "I prefer upscale fine dining experiences. Any suggestions?",
   "Are there any restaurants with unique dining experiences?"]

/-- The initial agent state, embedded from the initialState passed to
useCoAgent in RestaurantFinder.tsx (lines 28-59). -/
def initialAgentState : RestaurantFinderAgentState where
  status := { phase := .idle, error := none }
  search :=
    { query := ""
      location := ""
      stage := .not_started
      restaurants_found := 0
      restaurants := []
      completed := false }
  processing :=
    { progress := 0
      phases := ["search", "recommend", "feedback"]
      currentPhase := ""
      recommendations := none
      completed := false
      inProgress := false }
  ui :=
    { showRestaurants := false
      showProgress := false
      activeTab := "chat"
      showFeedbackPrompt := some false
      feedbackOptions := some initialFeedbackOptions }

/-- Modelled from the spec: the mutation operations a StateDelta may carry
(section 4.3: set-field, append-to-list, increment).  The backend patch
engine (the JSON Patch emission of agui_crew.py, not in this repository
snapshot) is represented at field granularity over the document shape
declared in restaurant-types.ts. -/
inductive PatchOp where
  | setPhase (p : Phase)
  | setError (e : Option String)
  | setTimestamp (t : Option String)
  | setQuery (q : String)
  | setLocation (l : String)
  | setStage (st : Stage)
  | setRestaurantsFound (n : Nat)
  | incRestaurantsFound (k : Nat)
  | setRestaurants (rs : List Restaurant)
  | appendRestaurants (rs : List Restaurant)
  | setSearchCompleted (b : Bool)
  | setProgress (q : ℚ)
  | setPhases (ps : List String)
  | setCurrentPhase (s : String)
  | setRecommendations (r : Option String)
  | setProcessingCompleted (b : Bool)
  | setInProgress (b : Bool)
  | setFeedback (f : Option String)
  | setShowRestaurants (b : Bool)
  | setShowProgress (b : Bool)
  | setActiveTab (s : String)
  | setShowFeedbackPrompt (b : Option Bool)
  | setFeedbackOptions (o : Option (List String))
deriving DecidableEq

/-- Modelled from the spec: applying one mutation operation to the state
document (section 4.3, the consumer side of the patch mechanism). -/
def applyOp (op : PatchOp) (s : RestaurantFinderAgentState) :
    RestaurantFinderAgentState :=
  match op with
  | .setPhase p => { s with status := { s.status with phase := p } }
  | .setError e => { s with status := { s.status with error := e } }
  | .setTimestamp t => { s with status := { s.status with timestamp := t } }
  | .setQuery q => { s with search := { s.search with query := q } }
  | .setLocation l => { s with search := { s.search with location := l } }
  | .setStage st => { s with search := { s.search with stage := st } }
  | .setRestaurantsFound n =>
      { s with search := { s.search with restaurants_found := n } }
  | .incRestaurantsFound k =>
      { s with search :=
          { s.search with restaurants_found := s.search.restaurants_found + k } }
  | .setRestaurants rs => { s with search := { s.search with restaurants := rs } }
  | .appendRestaurants rs =>
      { s with search :=
          { s.search with restaurants := s.search.restaurants ++ rs } }
  | .setSearchCompleted b => { s with search := { s.search with completed := b } }
  | .setProgress q => { s with processing := { s.processing with progress := q } }
  | .setPhases ps => { s with processing := { s.processing with phases := ps } }
  | .setCurrentPhase c =>
      { s with processing := { s.processing with currentPhase := c } }
  | .setRecommendations r =>
      { s with processing := { s.processing with recommendations := r } }
  | .setProcessingCompleted b =>
      { s with processing := { s.processing with completed := b } }
  | .setInProgress b => { s with processing := { s.processing with inProgress := b } }
  | .setFeedback f => { s with processing := { s.processing with feedback := f } }
  | .setShowRestaurants b => { s with ui := { s.ui with showRestaurants := b } }
  | .setShowProgress b => { s with ui := { s.ui with showProgress := b } }
  | .setActiveTab t => { s with ui := { s.ui with activeTab := t } }
  | .setShowFeedbackPrompt b =>
      { s with ui := { s.ui with showFeedbackPrompt := b } }
  | .setFeedbackOptions o => { s with ui := { s.ui with feedbackOptions := o } }

/-- Applying an ordered list of mutation operations, first to last. -/
def applyOps (ops : List PatchOp) (s : RestaurantFinderAgentState) :
    RestaurantFinderAgentState :=
  ops.foldl (fun acc op => applyOp op acc) s

/-- Modelled from the spec: the field-level diff of the status section
(section 4.3: the minimal set of operations transforming the previously
emitted document into the new one). -/
def statusDiff (a b : StatusInfo) : List PatchOp :=
  (if a.phase = b.phase then [] else [.setPhase b.phase]) ++
  (if a.error = b.error then [] else [.setError b.error]) ++
  (if a.timestamp = b.timestamp then [] else [.setTimestamp b.timestamp])

/-- Modelled from the spec: the field-level diff of the search section.
A result list that merely grew produces one append operation (section 4.3:
a single restaurant added to a long list produces one append operation, not
a full list re-send), and a grown result count produces one increment. -/
def searchDiff (a b : SearchInfo) : List PatchOp :=
  (if a.query = b.query then [] else [.setQuery b.query]) ++
  (if a.location = b.location then [] else [.setLocation b.location]) ++
  (if a.stage = b.stage then [] else [.setStage b.stage]) ++
  (if a.restaurants_found = b.restaurants_found then []
   else if a.restaurants_found < b.restaurants_found then
     [.incRestaurantsFound (b.restaurants_found - a.restaurants_found)]
   else [.setRestaurantsFound b.restaurants_found]) ++
  (if a.restaurants = b.restaurants then []
   else if a.restaurants <+: b.restaurants then
     [.appendRestaurants (b.restaurants.drop a.restaurants.length)]
   else [.setRestaurants b.restaurants]) ++
  (if a.completed = b.completed then [] else [.setSearchCompleted b.completed])

/-- Modelled from the spec: the field-level diff of the processing section. -/
def processingDiff (a b : ProcessingInfo) : List PatchOp :=
  (if a.progress = b.progress then [] else [.setProgress b.progress]) ++
  (if a.phases = b.phases then [] else [.setPhases b.phases]) ++
  (if a.currentPhase = b.currentPhase then [] else [.setCurrentPhase b.currentPhase]) ++
  (if a.recommendations = b.recommendations then []
   else [.setRecommendations b.recommendations]) ++
  (if a.completed = b.completed then [] else [.setProcessingCompleted b.completed]) ++
  (if a.inProgress = b.inProgress then [] else [.setInProgress b.inProgress]) ++
  (if a.feedback = b.feedback then [] else [.setFeedback b.feedback])

/-- Modelled from the spec: the field-level diff of the ui section. -/
def uiDiff (a b : UiInfo) : List PatchOp :=
  (if a.showRestaurants = b.showRestaurants then []
   else [.setShowRestaurants b.showRestaurants]) ++
  (if a.showProgress = b.showProgress then [] else [.setShowProgress b.showProgress]) ++
  (if a.activeTab = b.activeTab then [] else [.setActiveTab b.activeTab]) ++
  (if a.showFeedbackPrompt = b.showFeedbackPrompt then []
   else [.setShowFeedbackPrompt b.showFeedbackPrompt]) ++
  (if a.feedbackOptions = b.feedbackOptions then []
   else [.setFeedbackOptions b.feedbackOptions])

/-- Modelled from the spec: the full document diff, the ordered
concatenation of the per-section diffs. -/
def diffDoc (a b : RestaurantFinderAgentState) : List PatchOp :=
  statusDiff a.status b.status ++ searchDiff a.search b.search ++
  processingDiff a.processing b.processing ++ uiDiff a.ui b.ui

theorem applyOps_append (l₁ l₂ : List PatchOp) (s : RestaurantFinderAgentState) :
    applyOps (l₁ ++ l₂) s = applyOps l₂ (applyOps l₁ s) := by
  simp [applyOps, List.foldl_append]

theorem statusDiff_apply (a b : StatusInfo) (s : RestaurantFinderAgentState)
    (h : s.status = a) :
    applyOps (statusDiff a b) s = { s with status := b } := by
  obtain ⟨st, se, pr, ui⟩ := s
  obtain ⟨p2, e2, t2⟩ := b
  subst h
  obtain ⟨p1, e1, t1⟩ := st
  unfold statusDiff
  split_ifs <;> simp_all [applyOps, applyOp]

theorem applyOps_skip_or (c : Prop) [Decidable c] (op : PatchOp)
    (s t : RestaurantFinderAgentState)
    (hskip : c → s = t) (hdo : ¬ c → applyOp op s = t) :
    applyOps (if c then [] else [op]) s = t := by
  split_ifs with h
  · exact hskip h
  · simpa [applyOps] using hdo h

theorem applyOps_skip_or2 (c₁ c₂ : Prop) [Decidable c₁] [Decidable c₂]
    (op₁ op₂ : PatchOp) (s t : RestaurantFinderAgentState)
    (hskip : c₁ → s = t) (hdo₁ : ¬ c₁ → c₂ → applyOp op₁ s = t)
    (hdo₂ : ¬ c₁ → ¬ c₂ → applyOp op₂ s = t) :
    applyOps (if c₁ then [] else if c₂ then [op₁] else [op₂]) s = t := by
  split_ifs with h₁ h₂
  · exact hskip h₁
  · simpa [applyOps] using hdo₁ h₁ h₂
  · simpa [applyOps] using hdo₂ h₁ h₂

theorem searchDiff_apply (a b : SearchInfo) (s : RestaurantFinderAgentState)
    (h : s.search = a) :
    applyOps (searchDiff a b) s = { s with search := b } := by
  obtain ⟨st, se, pr, ui⟩ := s
  obtain ⟨q2, l2, sg2, n2, r2, c2⟩ := b
  subst h
  obtain ⟨q1, l1, sg1, n1, r1, c1⟩ := se
  unfold searchDiff
  rw [applyOps_append, applyOps_append, applyOps_append, applyOps_append,
      applyOps_append]
  rw [applyOps_skip_or (q1 = q2) (.setQuery q2)
        ⟨st, ⟨q1, l1, sg1, n1, r1, c1⟩, pr, ui⟩
        ⟨st, ⟨q2, l1, sg1, n1, r1, c1⟩, pr, ui⟩
        (fun hq => by rw [hq]) (fun _ => rfl)]
  rw [applyOps_skip_or (l1 = l2) (.setLocation l2)
        ⟨st, ⟨q2, l1, sg1, n1, r1, c1⟩, pr, ui⟩
        ⟨st, ⟨q2, l2, sg1, n1, r1, c1⟩, pr, ui⟩
        (fun hl => by rw [hl]) (fun _ => rfl)]
  rw [applyOps_skip_or (sg1 = sg2) (.setStage sg2)
        ⟨st, ⟨q2, l2, sg1, n1, r1, c1⟩, pr, ui⟩
        ⟨st, ⟨q2, l2, sg2, n1, r1, c1⟩, pr, ui⟩
        (fun hs => by rw [hs]) (fun _ => rfl)]
  rw [applyOps_skip_or2 (n1 = n2) (n1 < n2)
        (.incRestaurantsFound (n2 - n1)) (.setRestaurantsFound n2)
        ⟨st, ⟨q2, l2, sg2, n1, r1, c1⟩, pr, ui⟩
        ⟨st, ⟨q2, l2, sg2, n2, r1, c1⟩, pr, ui⟩
        (fun hn => by rw [hn])
        (fun _ hlt => by simp [applyOp]; omega)
        (fun _ _ => rfl)]
  rw [applyOps_skip_or2 (r1 = r2) (r1 <+: r2)
        (.appendRestaurants (r2.drop r1.length)) (.setRestaurants r2)
        ⟨st, ⟨q2, l2, sg2, n2, r1, c1⟩, pr, ui⟩
        ⟨st, ⟨q2, l2, sg2, n2, r2, c1⟩, pr, ui⟩
        (fun hr => by rw [hr])
        (fun _ hpre => by
          have hr := List.prefix_iff_eq_append.mp hpre
          simp [applyOp, hr])
        (fun _ _ => rfl)]
  rw [applyOps_skip_or (c1 = c2) (.setSearchCompleted c2)
        ⟨st, ⟨q2, l2, sg2, n2, r2, c1⟩, pr, ui⟩
        ⟨st, ⟨q2, l2, sg2, n2, r2, c2⟩, pr, ui⟩
        (fun hc => by rw [hc]) (fun _ => rfl)]

theorem processingDiff_apply (a b : ProcessingInfo) (s : RestaurantFinderAgentState)
    (h : s.processing = a) :
    applyOps (processingDiff a b) s = { s with processing := b } := by
  obtain ⟨st, se, pr, ui⟩ := s
  obtain ⟨g2, ph2, c2, r2, co2, i2, f2⟩ := b
  subst h
  obtain ⟨g1, ph1, c1, r1, co1, i1, f1⟩ := pr
  unfold processingDiff
  rw [applyOps_append, applyOps_append, applyOps_append, applyOps_append,
      applyOps_append, applyOps_append]
  rw [applyOps_skip_or (g1 = g2) (.setProgress g2)
        ⟨st, se, ⟨g1, ph1, c1, r1, co1, i1, f1⟩, ui⟩
        ⟨st, se, ⟨g2, ph1, c1, r1, co1, i1, f1⟩, ui⟩
        (fun hx => by rw [hx]) (fun _ => rfl)]
  rw [applyOps_skip_or (ph1 = ph2) (.setPhases ph2)
        ⟨st, se, ⟨g2, ph1, c1, r1, co1, i1, f1⟩, ui⟩
        ⟨st, se, ⟨g2, ph2, c1, r1, co1, i1, f1⟩, ui⟩
        (fun hx => by rw [hx]) (fun _ => rfl)]
  rw [applyOps_skip_or (c1 = c2) (.setCurrentPhase c2)
        ⟨st, se, ⟨g2, ph2, c1, r1, co1, i1, f1⟩, ui⟩
        ⟨st, se, ⟨g2, ph2, c2, r1, co1, i1, f1⟩, ui⟩
        (fun hx => by rw [hx]) (fun _ => rfl)]
  rw [applyOps_skip_or (r1 = r2) (.setRecommendations r2)
        ⟨st, se, ⟨g2, ph2, c2, r1, co1, i1, f1⟩, ui⟩
        ⟨st, se, ⟨g2, ph2, c2, r2, co1, i1, f1⟩, ui⟩
        (fun hx => by rw [hx]) (fun _ => rfl)]
  rw [applyOps_skip_or (co1 = co2) (.setProcessingCompleted co2)
        ⟨st, se, ⟨g2, ph2, c2, r2, co1, i1, f1⟩, ui⟩
        ⟨st, se, ⟨g2, ph2, c2, r2, co2, i1, f1⟩, ui⟩
        (fun hx => by rw [hx]) (fun _ => rfl)]
  rw [applyOps_skip_or (i1 = i2) (.setInProgress i2)
        ⟨st, se, ⟨g2, ph2, c2, r2, co2, i1, f1⟩, ui⟩
        ⟨st, se, ⟨g2, ph2, c2, r2, co2, i2, f1⟩, ui⟩
        (fun hx => by rw [hx]) (fun _ => rfl)]
  rw [applyOps_skip_or (f1 = f2) (.setFeedback f2)
        ⟨st, se, ⟨g2, ph2, c2, r2, co2, i2, f1⟩, ui⟩
        ⟨st, se, ⟨g2, ph2, c2, r2, co2, i2, f2⟩, ui⟩
        (fun hx => by rw [hx]) (fun _ => rfl)]

set_option maxHeartbeats 800000 in
theorem uiDiff_apply (a b : UiInfo) (s : RestaurantFinderAgentState)
    (h : s.ui = a) :
    applyOps (uiDiff a b) s = { s with ui := b } := by
  obtain ⟨st, se, pr, ui⟩ := s
  obtain ⟨r2, p2, t2, f2, o2⟩ := b
  subst h
  obtain ⟨r1, p1, t1, f1, o1⟩ := ui
  unfold uiDiff
  split_ifs <;> simp_all [applyOps, applyOp]

/-- Round-trip of the patch mechanism: applying the computed diff of two
documents to the first yields the second exactly. -/
theorem diffDoc_apply (a b : RestaurantFinderAgentState) :
    applyOps (diffDoc a b) a = b := by
  rw [diffDoc, applyOps_append, applyOps_append, applyOps_append]
  rw [statusDiff_apply a.status b.status a rfl]
  rw [searchDiff_apply a.search b.search { a with status := b.status } rfl]
  rw [processingDiff_apply a.processing b.processing
        { a with status := b.status, search := b.search } rfl]
  rw [uiDiff_apply a.ui b.ui
        { a with status := b.status, search := b.search,
                 processing := b.processing } rfl]

/-- Error kinds of the specification taxonomy (section 7). -/
inductive ErrorKind where
  | UnknownThread
  | WorkflowFailure
  | DuplicateThread
  | MalformedResume
deriving DecidableEq

/-- Protocol events, embedded from the AG-UI event vocabulary listed in
docs/human_in_the_loop_guide.md (RunStarted, RunFinished, RunError,
StateSnapshot, StateDelta, TextMessageStart/Content/End,
ToolCallStart/Args/End) and section 3 of the specification. -/
inductive Event where
  | runStarted
  | runFinished
  | runError (kind : ErrorKind) (message : String)
  | stateSnapshot (doc : RestaurantFinderAgentState)
  | stateDelta (ops : List PatchOp)
  | textMessageStart
  | textMessageContent (content : String)
  | textMessageEnd
  | toolCallStart (toolName : String)
  | toolCallArgs (argsJson : String)
  | toolCallEnd
deriving DecidableEq

/-- Consumer-side application of one event to the mirrored state document:
a StateSnapshot replaces the document wholesale, a StateDelta is applied
incrementally, every other event leaves the document unchanged (section 6,
collaborator boundary of the UI consumer). -/
def applyEvent (e : Event) (s : RestaurantFinderAgentState) :
    RestaurantFinderAgentState :=
  match e with
  | .stateSnapshot d => d
  | .stateDelta ops => applyOps ops s
  | _ => s

/-- Applying a whole event stream, first to last. -/
def applyEvents (evs : List Event) (s : RestaurantFinderAgentState) :
    RestaurantFinderAgentState :=
  evs.foldl (fun acc e => applyEvent e acc) s

/-- Whether an event mutates the state document. -/
def mutatesState : Event → Bool
  | .stateSnapshot _ => true
  | .stateDelta _ => true
  | _ => false

/-- Modelled from the spec: PendingFeedback (section 3) — the data stored in
the session registry when a run suspends: thread id, prior recommendation
text, prior restaurant list and the feedback option list.  The backend that
creates it (agui_crew.py) is not in this repository snapshot. -/
structure PendingFeedback where
  thread_id : String
  recommendations : String
  restaurants : List Restaurant
  feedbackOptions : List String
deriving DecidableEq

/-- Modelled from the spec: the session registry, a table from thread id to
PendingFeedback (section 4.4), embedded as an association list. -/
abbrev SessionRegistry := List (String × PendingFeedback)

/-- Lookup in the session registry. -/
def regLookup : SessionRegistry → String → Option PendingFeedback
  | [], _ => none
  | (k, v) :: rest, t => if k = t then some v else regLookup rest t

/-- Modelled from the spec: register(thread_id, data) of section 4.4, which
fails with DuplicateThread when an entry already exists. -/
def register (reg : SessionRegistry) (t : String) (pf : PendingFeedback) :
    Except ErrorKind SessionRegistry :=
  if (regLookup reg t).isSome then .error .DuplicateThread
  else .ok ((t, pf) :: reg)

/-- Modelled from the spec: take(thread_id) of section 4.4 — atomically
retrieves and deletes the entry, returning none (NotFound) if absent. -/
def take (reg : SessionRegistry) (t : String) :
    Option PendingFeedback × SessionRegistry :=
  match regLookup reg t with
  | some pf => (some pf, reg.filter (fun e => e.1 != t))
  | none => (none, reg)

/-- Inbound request shape of section 6: thread id, run id, messages, and an
optional feedback string whose presence routes to resume logic.  Embedded
from the guide and the example curl request in docs.md. -/
structure RunAgentInput where
  thread_id : String
  run_id : String
  messages : List String
  feedback : Option String := none
deriving DecidableEq

/-- The five sample restaurants of restaurant_recommendations.md, used as
the modelled result set of the fresh run. -/
def sampleRestaurants : List Restaurant :=
  [{ id := "1", name := "Le Bernardin", cuisine := some "French Seafood",
     address := some "Midtown Manhattan" },
   { id := "2", name := "Peter Luger Steak House",
     cuisine := some "American Steakhouse",
     address := some "Williamsburg, Brooklyn" },
   { id := "3", name := "Momofuku Noodle Bar", cuisine := some "Asian-American",
     address := some "East Village" },
   { id := "4", name := "Katz\x27s Delicatessen", cuisine := some "Jewish Deli",
     address := some "Lower East Side" },
   { id := "5", name := "The Modern", cuisine := some "Contemporary American",
     address := some "Midtown Manhattan" }]

/-- The recommendation text streamed by the modelled fresh run. -/
def sampleRecommendations : String :=
  "Here are five delightful restaurant recommendations in New York City."

/-- The refined recommendation text streamed by the modelled resume run. -/
def sampleRefinedRecommendations : String :=
  "Updated recommendations based on your feedback."

/-- Modelled from the spec: the ordered StateDelta operation lists of the
fresh run, following the workflow narrative of
docs/human_in_the_loop_guide.md (research, recommendation, feedback phases)
and the section 8 scenario (snapshot with empty location first, then a
delta setting the inferred location). -/
def freshDelta1 : List PatchOp :=
  [.setPhase .initialized, .setInProgress true, .setShowProgress true,
   .setProgress (1/10), .setCurrentPhase "search"]

def freshDelta2 : List PatchOp :=
  [.setPhase .searching_restaurants, .setStage .searching,
   .setQuery "Find Italian restaurants in Chicago", .setLocation "Chicago",
   .setProgress (3/10)]

def freshDelta3 : List PatchOp :=
  [.setPhase .restaurants_found, .setStage .found,
   .appendRestaurants sampleRestaurants, .incRestaurantsFound 5,
   .setProgress (6/10), .setShowRestaurants true]

def freshDelta4 : List PatchOp :=
  [.setPhase .presenting_recommendations, .setStage .recommending,
   .setProgress (8/10), .setCurrentPhase "recommend"]

def freshDelta5 : List PatchOp :=
  [.setRecommendations (some sampleRecommendations), .setPhase .await_feedback,
   .setStage .feedback, .setProgress (9/10), .setShowFeedbackPrompt (some true),
   .setInProgress false, .setCurrentPhase "feedback"]

/-- The serialized arguments of the provideFeedback tool call emitted at the
suspend point. -/
def provideFeedbackArgsJson : String :=
  "\x7b\"message\":\"How do you feel about these recommendations?\"\x7d"

/-- Modelled from the spec: the event stream of a fresh run, which walks the
phases up to await_feedback, emits the ToolCallStart/Args pair for the
feedback prompt and then closes the stream without RunFinished (section 4.1;
the recommendation text is fully streamed before the delta that sets
processing.recommendations, per section 4.3). -/
def freshRunEvents : List Event :=
  [.runStarted,
   .stateSnapshot initialAgentState,
   .stateDelta freshDelta1,
   .stateDelta freshDelta2,
   .stateDelta freshDelta3,
   .stateDelta freshDelta4,
   .textMessageStart,
   .textMessageContent sampleRecommendations,
   .textMessageEnd,
   .stateDelta freshDelta5,
   .toolCallStart "provideFeedback",
   .toolCallArgs provideFeedbackArgsJson,
   .toolCallEnd]

/-- The PendingFeedback entry the fresh run persists when it suspends. -/
def pendingAfterFresh (t : String) : PendingFeedback where
  thread_id := t
  recommendations := sampleRecommendations
  restaurants := sampleRestaurants
  feedbackOptions := initialFeedbackOptions

/-- Modelled from the spec: the snapshot document a resume run starts from —
phase processing_feedback, with the feedback text and the prior results
folded in (section 4.1: resume loads PendingFeedback and invokes the bridge
with feedback and prior results in its input). -/
def resumeStartDoc (pf : PendingFeedback) (fb : String) :
    RestaurantFinderAgentState where
  status := { phase := .processing_feedback, error := none }
  search :=
    { query := ""
      location := ""
      stage := .feedback
      restaurants_found := pf.restaurants.length
      restaurants := pf.restaurants
      completed := true }
  processing :=
    { progress := 0
      phases := ["search", "recommend", "feedback"]
      currentPhase := "feedback"
      recommendations := some pf.recommendations
      completed := false
      inProgress := true
      feedback := some fb }
  ui :=
    { showRestaurants := true
      showProgress := true
      activeTab := "chat"
      showFeedbackPrompt := some false
      feedbackOptions := some pf.feedbackOptions }

def resumeDelta1 : List PatchOp := [.setProgress (1/2)]

def resumeDelta2 : List PatchOp :=
  [.setPhase .feedback_completed,
   .setRecommendations (some sampleRefinedRecommendations), .setProgress 1,
   .setProcessingCompleted true, .setInProgress false]

/-- Modelled from the spec: the event stream of a resume run — it starts
from processing_feedback, streams the refined recommendation text, ends in
feedback_completed and finishes with RunFinished; it never revisits the
search phases (section 8 scenarios and docs/human_in_the_loop_guide.md,
handle_feedback_request). -/
def resumeRunEvents (pf : PendingFeedback) (fb : String) : List Event :=
  [.runStarted,
   .stateSnapshot (resumeStartDoc pf fb),
   .stateDelta resumeDelta1,
   .textMessageStart,
   .textMessageContent sampleRefinedRecommendations,
   .textMessageEnd,
   .stateDelta resumeDelta2,
   .runFinished]

/-- Message shown with the UnknownThread run error. -/
def unknownThreadMessage : String := "No pending feedback found for thread"

/-- Modelled from the spec: the top-level agent endpoint of
docs/human_in_the_loop_guide.md (agent_endpoint): the presence of the
feedback field routes the request to resume logic, which consumes the
PendingFeedback entry by thread id and fails with a single UnknownThread
RunError, leaving the registry untouched, when none is registered; a
request without feedback runs the fresh workflow and persists a
PendingFeedback entry at the suspend point. -/
def handleAgentRequest (reg : SessionRegistry) (inp : RunAgentInput) :
    List Event × SessionRegistry :=
  match inp.feedback with
  | some fb =>
    match take reg inp.thread_id with
    | (some pf, reg') => (resumeRunEvents pf fb, reg')
    | (none, _) => ([.runError .UnknownThread unknownThreadMessage], reg)
  | none => (freshRunEvents, (inp.thread_id, pendingAfterFresh inp.thread_id) :: reg)

/-- The phase values an event stream sets, in emission order: the phase of
each snapshot document plus every setPhase carried by a delta. -/
def phasesOf (evs : List Event) : List Phase :=
  (evs.map fun e =>
    match e with
    | .stateSnapshot d => [d.status.phase]
    | .stateDelta ops =>
        ops.filterMap fun op =>
          match op with
          | .setPhase p => some p
          | _ => none
    | _ => []).flatten

/-- The progress values an event stream emits, in emission order: the
progress of each snapshot document plus every setProgress carried by a
delta. -/
def progressOf (evs : List Event) : List ℚ :=
  (evs.map fun e =>
    match e with
    | .stateSnapshot d => [d.processing.progress]
    | .stateDelta ops =>
        ops.filterMap fun op =>
          match op with
          | .setProgress q => some q
          | _ => none
    | _ => []).flatten

/-- The successive state documents a consumer holds while applying an event
stream, starting document included. -/
def docStates (evs : List Event) (d : RestaurantFinderAgentState) :
    List RestaurantFinderAgentState :=
  List.scanl (fun acc e => applyEvent e acc) d evs

/-- The feedback text used by the modelled resume run. -/
def sampleFeedback : String :=
  "I\x27m looking for more budget-friendly dining options."

/-- The state documents reachable in the modelled conversation: every
document the consumer mirror passes through during the fresh run and during
the resume run. -/
def runModelDocs : List RestaurantFinderAgentState :=
  docStates freshRunEvents initialAgentState ++
  docStates (resumeRunEvents (pendingAfterFresh "t1") sampleFeedback)
    initialAgentState

/-- Modelled from the spec: the per-document delta emission of a run — one
diff between each pair of consecutive internal states (section 4.3). -/
def deltasOf : RestaurantFinderAgentState → List RestaurantFinderAgentState →
    List (List PatchOp)
  | _, [] => []
  | p, n :: rest => diffDoc p n :: deltasOf n rest

/-- Modelled from the spec: the state-bearing event sequence of a run whose
successive internal states are d0, ds: one StateSnapshot of the first
state followed by one StateDelta per state change (section 4.3: a full
document emitted once at run start, then ordered minimal deltas). -/
def emitRun (d0 : RestaurantFinderAgentState)
    (ds : List RestaurantFinderAgentState) : List Event :=
  .stateSnapshot d0 :: (deltasOf d0 ds).map .stateDelta

/-- The empty state document a consumer starts from (section 3: the
StateDocument is created empty at run start). -/
def emptyAgentState : RestaurantFinderAgentState where
  status := { phase := .idle, error := none }
  search :=
    { query := "", location := "", stage := .not_started,
      restaurants_found := 0, restaurants := [], completed := false }
  processing :=
    { progress := 0, phases := [], currentPhase := "",
      recommendations := none, completed := false, inProgress := false }
  ui :=
    { showRestaurants := false, showProgress := false, activeTab := "" }

/-- The built-in default feedback options of the provideFeedback action,
from RestaurantFinder.tsx lines 195-201 (used when args.feedbackOptions is
not an array). -/
def defaultFeedbackOptions : List String :=
  ["Thank you for the recommendations! These look perfect.",
   "Can you suggest more restaurants with different cuisines?",
   "I\x27m looking for more budget-friendly dining options.",
   "I prefer upscale fine dining experiences. Any suggestions?",
   "Are there any restaurants with unique dining experiences?"]

/-- The default heading of the feedback prompt, from RestaurantFinder.tsx
lines 204-206. -/
def defaultFeedbackMessage : String :=
  "How do you feel about these recommendations?"

/-- The arguments the provideFeedback render function receives:
feedbackOptions is none when the streamed value is absent or not an array,
message is none when absent (RestaurantFinder.tsx lines 182-209). -/
structure FeedbackArgs where
  feedbackOptions : Option (List String)
  message : Option String
deriving DecidableEq

/-- What the provideFeedback render function returns: either the loading
placeholder (when respond is not yet available) or the feedback widget with
its heading and option buttons. -/
inductive RenderResult where
  | loading
  | feedbackUI (heading : String) (options : List String)
deriving DecidableEq

/-- The option list the render function uses: the streamed array when it is
one, else the built-in defaults (RestaurantFinder.tsx lines 194-202). -/
def resolvedOptions (fo : Option (List String)) : List String :=
  match fo with
  | some l => l
  | none => defaultFeedbackOptions

/-- The heading the render function uses: the streamed message when it is a
non-empty string, else the default (RestaurantFinder.tsx lines 204-206; the
check is JavaScript truthiness, so the empty string also falls back). -/
def resolvedMessage (m : Option String) : String :=
  match m with
  | some s => if s = "" then defaultFeedbackMessage else s
  | none => defaultFeedbackMessage

/-- The provideFeedback renderAndWaitForResponse body of
RestaurantFinder.tsx lines 182-268: resolve the options and the message,
render the loading placeholder when respond is not yet available, else the
feedback widget. -/
def renderProvideFeedback (args : FeedbackArgs) (respondAvailable : Bool) :
    RenderResult :=
  let options := resolvedOptions args.feedbackOptions
  let msg := resolvedMessage args.message
  if respondAvailable then .feedbackUI msg options else .loading

/-- One escaped character of JSON string serialization, as performed by
JSON.stringify: quote, backslash, and the common control characters get a
two-character escape, other control characters a unicode escape, and every
other character stands for itself. -/
def escChar (c : Char) : List Char :=
  if c = Char.ofNat 34 then [Char.ofNat 92, Char.ofNat 34]
  else if c = Char.ofNat 92 then [Char.ofNat 92, Char.ofNat 92]
  else if c = Char.ofNat 10 then [Char.ofNat 92, 'n']
  else if c = Char.ofNat 13 then [Char.ofNat 92, 'r']
  else if c = Char.ofNat 9 then [Char.ofNat 92, 't']
  else if c.toNat < 32 then
    [Char.ofNat 92, 'u', '0', '0',
     "0123456789abcdef".toList.getD (c.toNat / 16) '0',
     "0123456789abcdef".toList.getD (c.toNat % 16) '0']
  else [c]

/-- JSON string-body escaping of a whole string. -/
def jsonEscape (s : String) : String :=
  ⟨(s.data.map escChar).flatten⟩

/-- A character that JSON string serialization leaves unchanged. -/
def plainChar (c : Char) : Prop :=
  c ≠ Char.ofNat 34 ∧ c ≠ Char.ofNat 92 ∧ 32 ≤ c.toNat

instance (c : Char) : Decidable (plainChar c) := by
  unfold plainChar; infer_instance

/-- A string that JSON string serialization leaves unchanged. -/
def plainString (s : String) : Prop :=
  ∀ c ∈ s.data, plainChar c

instance (s : String) : Decidable (plainString s) := by
  unfold plainString; infer_instance

/-- The JSON payload the provideFeedback onClick handler sends through
respond, from RestaurantFinder.tsx lines 248-260: the JSON.stringify of an
object with fields feedbackText (the chosen option) and originalLocation,
in that order. -/
def feedbackPayload (feedbackText originalLocation : String) : String :=
  "\x7b\"feedbackText\":\"" ++ jsonEscape feedbackText ++
  "\",\"originalLocation\":\"" ++ jsonEscape originalLocation ++ "\"\x7d"

/-- The payload the onClick handler of a feedback option button builds from
the component state and the chosen option: the original location is read
from state.search.location (RestaurantFinder.tsx lines 245-255). -/
def onClickRespondPayload (s : RestaurantFinderAgentState) (option : String) :
    String :=
  feedbackPayload option s.search.location

/-- Modelled from the spec: the new top-level request the UI consumer sends
when the user answers the feedback prompt — it carries the same thread id
and the respond payload in the feedback field (section 6, collaborator
boundary of the UI consumer; the runtime that forwards the respond value is
the CopilotKit runtime, not part of this repository snapshot). -/
def mkResumeRequest (threadId runId payload : String) : RunAgentInput where
  thread_id := threadId
  run_id := runId
  messages := []
  feedback := some payload

/-- The state update the onClick handler performs before calling respond
(RestaurantFinder.tsx lines 230-243): spread the old state, set
processing.inProgress to true and status.phase to processing_feedback. -/
def onClickStateUpdate (s : RestaurantFinderAgentState) :
    RestaurantFinderAgentState :=
  { s with
    processing := { s.processing with inProgress := true }
    status := { s.status with phase := .processing_feedback } }

/-- The consecutive pairs of a list: (l i, l (i+1)) for every i. -/
def adjacentPairs {α : Type} (l : List α) : List (α × α) :=
  l.zip l.tail

theorem regLookup_filter_self (reg : SessionRegistry) (t : String) :
    regLookup (reg.filter (fun e => e.1 != t)) t = none := by
  induction reg with
  | nil => rfl
  | cons e rest ih =>
    by_cases he : e.1 = t
    · simp [List.filter_cons, he, ih]
    · simp [List.filter_cons, he, ih, regLookup]

/-- C7: take(thread_id) on the session registry succeeds at most once — after
a successful take, a second take with the same thread id (with no intervening
register) returns NotFound, so the stored PendingFeedback is consumed and
deleted exactly once. -/
theorem c7_take_at_most_once :
    ∀ (reg : SessionRegistry) (t : String) (pf : PendingFeedback)
      (reg' : SessionRegistry),
      take reg t = (some pf, reg') → take reg' t = (none, reg') := by
  intro reg t pf reg' h
  unfold take at h
  cases hlk : regLookup reg t with
  | none => rw [hlk] at h; simp at h
  | some q =>
    rw [hlk] at h
    simp only [Prod.mk.injEq] at h
    obtain ⟨-, h2⟩ := h
    subst h2
    unfold take
    rw [regLookup_filter_self]

/-- Witness for C7 at a concrete registry holding one entry for thread t1. -/
theorem c7_take_at_most_once_witness :
    take ([] : SessionRegistry) "t1" = (none, []) :=
  c7_take_at_most_once [("t1", pendingAfterFresh "t1")] "t1"
    (pendingAfterFresh "t1") [] rfl

/-- An event that is a RunError with kind UnknownThread. -/
def isUnknownThreadError : Event → Bool
  | .runError .UnknownThread _ => true
  | _ => false

/-- C6: a resume request whose thread id has no registered PendingFeedback
produces exactly one RunError of kind UnknownThread, the stream closes with
no state-mutating event, every consumer document is left unchanged, and the
registry is untouched. -/
theorem c6_unknown_thread_error :
    ∀ (reg : SessionRegistry) (inp : RunAgentInput) (fb : String),
      inp.feedback = some fb →
      regLookup reg inp.thread_id = none →
      handleAgentRequest reg inp =
        ([.runError .UnknownThread unknownThreadMessage], reg) ∧
      ((handleAgentRequest reg inp).1.countP isUnknownThreadError) = 1 ∧
      ((handleAgentRequest reg inp).1.filter mutatesState) = [] ∧
      ∀ d, applyEvents (handleAgentRequest reg inp).1 d = d := by
  intro reg inp fb hfb hlk
  have hroute : handleAgentRequest reg inp =
      ([.runError .UnknownThread unknownThreadMessage], reg) := by
    unfold handleAgentRequest
    rw [hfb]
    unfold take
    rw [hlk]
  refine ⟨hroute, ?_, ?_, ?_⟩
  · rw [hroute]; rfl
  · rw [hroute]; rfl
  · intro d; rw [hroute]; rfl

/-- Witness for C6 at the empty registry and a concrete resume request. -/
theorem c6_unknown_thread_error_witness :
    handleAgentRequest []
        { thread_id := "missing", run_id := "r1", messages := [],
          feedback := some "More options" } =
      ([.runError .UnknownThread unknownThreadMessage], []) ∧
    ((handleAgentRequest []
        { thread_id := "missing", run_id := "r1", messages := [],
          feedback := some "More options" }).1.countP isUnknownThreadError) = 1 := by
  have h := c6_unknown_thread_error []
    { thread_id := "missing", run_id := "r1", messages := [],
      feedback := some "More options" } "More options" rfl rfl
  exact ⟨h.1, h.2.1⟩

/-- C9: the provideFeedback render function is total over its arguments —
when respond is not yet available it renders the loading placeholder; when
feedbackOptions is not an array the rendered options are exactly the five
built-in defaults; when message is absent the heading is the default
question; and with respond available it renders the widget with the
resolved heading and options. -/
theorem c9_render_total_with_defaults :
    ∀ (fo : Option (List String)) (m : Option String),
      renderProvideFeedback ⟨fo, m⟩ false = .loading ∧
      (fo = none → resolvedOptions fo = defaultFeedbackOptions) ∧
      (m = none → resolvedMessage m = defaultFeedbackMessage) ∧
      renderProvideFeedback ⟨fo, m⟩ true =
        .feedbackUI (resolvedMessage m) (resolvedOptions fo) := by
  intro fo m
  refine ⟨rfl, ?_, ?_, rfl⟩ <;> rintro rfl <;> rfl

/-- Witness for C9 at absent feedbackOptions and absent message. -/
theorem c9_render_total_with_defaults_witness :
    renderProvideFeedback ⟨none, none⟩ false = .loading ∧
    resolvedOptions none = defaultFeedbackOptions ∧
    resolvedMessage none = defaultFeedbackMessage := by
  have h := c9_render_total_with_defaults none none
  exact ⟨h.1, h.2.1 rfl, h.2.2.1 rfl⟩

/-- C10: the state update the onClick handler performs before calling
respond changes only processing.inProgress (to true) and status.phase (to
processing_feedback); the whole search and ui sections and every remaining
status and processing field are unchanged. -/
theorem c10_onclick_frame :
    ∀ s : RestaurantFinderAgentState,
      (onClickStateUpdate s).status.phase = Phase.processing_feedback ∧
      (onClickStateUpdate s).processing.inProgress = true ∧
      (onClickStateUpdate s).status.error = s.status.error ∧
      (onClickStateUpdate s).status.timestamp = s.status.timestamp ∧
      (onClickStateUpdate s).search = s.search ∧
      (onClickStateUpdate s).ui = s.ui ∧
      (onClickStateUpdate s).processing.progress = s.processing.progress ∧
      (onClickStateUpdate s).processing.phases = s.processing.phases ∧
      (onClickStateUpdate s).processing.currentPhase = s.processing.currentPhase ∧
      (onClickStateUpdate s).processing.recommendations =
        s.processing.recommendations ∧
      (onClickStateUpdate s).processing.completed = s.processing.completed ∧
      (onClickStateUpdate s).processing.feedback = s.processing.feedback :=
  fun _ => ⟨rfl, rfl, rfl, rfl, rfl, rfl, rfl, rfl, rfl, rfl, rfl, rfl⟩

/-- The transition edges of section 4.1 as written in the specification,
over the wire names of its own phase vocabulary: the linear chain plus
feedback_completed from processing_feedback and error from every
non-terminal state. -/
def spec41EdgePairs : List (String × String) :=
  [("idle", "initialized"), ("initialized", "searching"),
   ("searching", "found"), ("found", "recommending"),
   ("recommending", "await_feedback"),
   ("await_feedback", "processing_feedback"),
   ("processing_feedback", "completed"),
   ("processing_feedback", "feedback_completed"),
   ("idle", "error"), ("initialized", "error"), ("searching", "error"),
   ("found", "error"), ("recommending", "error"),
   ("await_feedback", "error"), ("processing_feedback", "error")]

/-- C1 counterexample: the claim as stated is false — the observed phase
values are the wire names declared in restaurant-types.ts, and the value
searching_restaurants (observed in every non-trivial run trace) is not in
the section 4.1 phase set, so neither the membership clause nor the edge
clause of the claim holds; moreover error is in the section 4.1 set but is
not a phase the code declares at all. -/
theorem c1_phase_machine_counterexample :
    ¬ ((∀ t ∈ modelTraces, ∀ p ∈ t, phaseWire p ∈ spec41PhaseNames) ∧
       (∀ t ∈ modelTraces,
          ∀ pr ∈ adjacentPairs (t.map phaseWire), pr ∈ spec41EdgePairs)) ∧
    "searching_restaurants" ∈ codePhaseNames ∧
    "searching_restaurants" ∉ spec41PhaseNames ∧
    "error" ∈ spec41PhaseNames ∧
    "error" ∉ codePhaseNames := by
  refine ⟨?_, by decide, by decide, by decide, by decide⟩
  intro h
  exact absurd (h.1
    [.idle, .initialized, .searching_restaurants, .restaurants_found,
     .presenting_recommendations, .await_feedback] (by decide)
    .searching_restaurants (by decide)) (by decide)

/-- C1 amended: over the phase vocabulary the code declares
(searching_restaurants, restaurants_found and presenting_recommendations in
place of the specification names searching, found and recommending, and
with no separate error phase), every phase of every model run trace is in
the declared finite set, every consecutive pair of phases is an edge of the
section 4.1 chain, and feedback_completed is entered only from
processing_feedback. -/
theorem c1_phase_machine_amended :
    ∀ t ∈ modelTraces,
      (∀ p ∈ t, phaseWire p ∈ codePhaseNames) ∧
      (∀ pr ∈ adjacentPairs t, pr ∈ phaseEdges) ∧
      (∀ e ∈ phaseEdges,
        e.2 = Phase.feedback_completed → e.1 = Phase.processing_feedback) := by
  intro t ht
  fin_cases ht <;> exact ⟨by decide, by decide, by decide⟩

/-- Witness for C1 at the full fresh-plus-resume trace. -/
theorem c1_phase_machine_amended_witness :
    phaseWire Phase.searching_restaurants ∈ codePhaseNames ∧
    (Phase.processing_feedback, Phase.feedback_completed) ∈ phaseEdges := by
  have h := c1_phase_machine_amended
    [.idle, .initialized, .searching_restaurants, .restaurants_found,
     .presenting_recommendations, .await_feedback, .processing_feedback,
     .feedback_completed] (by decide)
  exact ⟨h.1 .searching_restaurants (by decide),
         h.2.1 (Phase.processing_feedback, Phase.feedback_completed) (by decide)⟩

/-- C8: in every reachable document of the modelled conversation in which
search.restaurants is populated, search.restaurants_found equals the length
of search.restaurants. -/
theorem c8_restaurants_found_length :
    ∀ d ∈ runModelDocs, d.search.restaurants ≠ [] →
      d.search.restaurants_found = d.search.restaurants.length := by decide

/-- Witness for C8 at the resume-run snapshot document, whose restaurant
list is populated with the five sample restaurants. -/
theorem c8_restaurants_found_length_witness :
    (resumeStartDoc (pendingAfterFresh "t1") sampleFeedback).search.restaurants_found =
      (resumeStartDoc (pendingAfterFresh "t1") sampleFeedback).search.restaurants.length :=
  c8_restaurants_found_length
    (resumeStartDoc (pendingAfterFresh "t1") sampleFeedback)
    (by decide) (by decide)

/-- C3: a fresh run closes its stream at await_feedback without emitting
RunFinished, and a resume request carrying feedback for a thread with a
registered PendingFeedback is routed to the resume stream, whose first
observed phase is processing_feedback and which never revisits the
searching_restaurants phase. -/
theorem c3_suspend_resume :
    ∀ (reg : SessionRegistry) (inp : RunAgentInput) (fb : String)
      (pf : PendingFeedback) (reg' : SessionRegistry),
      inp.feedback = some fb →
      take reg inp.thread_id = (some pf, reg') →
      Event.runFinished ∉ freshRunEvents ∧
      (phasesOf freshRunEvents).getLast? = some Phase.await_feedback ∧
      handleAgentRequest reg inp = (resumeRunEvents pf fb, reg') ∧
      (phasesOf (resumeRunEvents pf fb)).head? = some Phase.processing_feedback ∧
      Phase.searching_restaurants ∉ phasesOf (resumeRunEvents pf fb) := by
  intro reg inp fb pf reg' hfb htake
  have hphases : phasesOf (resumeRunEvents pf fb) =
      [.processing_feedback, .feedback_completed] := rfl
  refine ⟨by decide, by decide, ?_, ?_, ?_⟩
  · unfold handleAgentRequest
    rw [hfb, htake]
  · rw [hphases]; rfl
  · rw [hphases]; decide

/-- Witness for C3 at a concrete registry holding the pending feedback of
thread t1 and a concrete resume request for it. -/
theorem c3_suspend_resume_witness :
    Event.runFinished ∉ freshRunEvents ∧
    handleAgentRequest [("t1", pendingAfterFresh "t1")]
        { thread_id := "t1", run_id := "r2", messages := [],
          feedback := some sampleFeedback } =
      (resumeRunEvents (pendingAfterFresh "t1") sampleFeedback, []) := by
  have h := c3_suspend_resume [("t1", pendingAfterFresh "t1")]
    { thread_id := "t1", run_id := "r2", messages := [],
      feedback := some sampleFeedback }
    sampleFeedback (pendingAfterFresh "t1") [] rfl rfl
  exact ⟨h.1, h.2.2.1⟩

/-- C4: within each modelled run, the emitted progress values are
monotonically non-decreasing — every consecutive pair (v t, v t+1) of
progress values extracted from the run's event stream satisfies
v t ≤ v t+1, both for the fresh run and for any resume run. -/
theorem c4_progress_monotone :
    (∀ pr ∈ adjacentPairs (progressOf freshRunEvents), pr.1 ≤ pr.2) ∧
    ∀ (pf : PendingFeedback) (fb : String),
      ∀ pr ∈ adjacentPairs (progressOf (resumeRunEvents pf fb)),
        pr.1 ≤ pr.2 := by
  constructor
  · intro pr hpr
    rw [show adjacentPairs (progressOf freshRunEvents) =
          [(0, 1/10), (1/10, 3/10), (3/10, 6/10), (6/10, 8/10),
           (8/10, 9/10)] from rfl] at hpr
    fin_cases hpr <;> norm_num
  · intro pf fb pr hpr
    rw [show adjacentPairs (progressOf (resumeRunEvents pf fb)) =
          [(0, 1/2), (1/2, 1)] from rfl] at hpr
    fin_cases hpr <;> norm_num

/-- Witness for C4 at the second consecutive pair of the fresh run. -/
theorem c4_progress_monotone_witness : ((1 : ℚ)/10, (3 : ℚ)/10).1 ≤
    ((1 : ℚ)/10, (3 : ℚ)/10).2 :=
  c4_progress_monotone.1 (1/10, 3/10) (by
    rw [show adjacentPairs (progressOf freshRunEvents) =
          [(0, 1/10), (1/10, 3/10), (3/10, 6/10), (6/10, 8/10),
           (8/10, 9/10)] from rfl]
    exact List.Mem.tail _ (List.Mem.head _))

/-- C5: applying, in order, the single StateSnapshot a run emits followed by
its StateDeltas to the empty document yields exactly the document directly
constructed from the run's final internal state, for every run (every
starting state and every sequence of successive internal states). -/
theorem c5_snapshot_deltas_roundtrip :
    ∀ (d0 : RestaurantFinderAgentState)
      (ds : List RestaurantFinderAgentState),
      applyEvents (emitRun d0 ds) emptyAgentState = ds.getLastD d0 := by
  intro d0 ds
  induction ds generalizing d0 with
  | nil => rfl
  | cons d1 rest ih =>
    have h := ih d1
    simp only [emitRun, deltasOf, List.map_cons, applyEvents,
      List.foldl_cons, applyEvent] at h ⊢
    rw [diffDoc_apply, List.getLastD_cons]
    exact h

theorem escChar_plain (c : Char) (h : plainChar c) : escChar c = [c] := by
  obtain ⟨h1, h2, h3⟩ := h
  have h4 : c ≠ Char.ofNat 10 := by rintro rfl; exact absurd h3 (by decide)
  have h5 : c ≠ Char.ofNat 13 := by rintro rfl; exact absurd h3 (by decide)
  have h6 : c ≠ Char.ofNat 9 := by rintro rfl; exact absurd h3 (by decide)
  have h7 : ¬ c.toNat < 32 := by omega
  simp [escChar, h1, h2, h4, h5, h6, h7]

theorem flatten_map_singleton {α : Type} (l : List α) :
    (l.map fun a => [a]).flatten = l := by
  induction l <;> simp_all

theorem jsonEscape_plain (s : String) (h : plainString s) : jsonEscape s = s := by
  unfold jsonEscape
  rw [List.map_congr_left fun c hc => escChar_plain c (h c hc)]
  rw [flatten_map_singleton]

/-- C2 counterexample: the claim as stated is false — when the user chooses
the feedback option "Can you suggest more restaurants with different
cuisines?" the onClick handler responds not with the chosen text but with
the JSON serialization of an object wrapping it, so the feedback field of
the resume request is not the chosen feedback text. -/
theorem c2_feedback_request_counterexample :
    (mkResumeRequest "t1" "r2"
        (onClickRespondPayload initialAgentState
          "Can you suggest more restaurants with different cuisines?")).feedback ≠
      some "Can you suggest more restaurants with different cuisines?" := by
  decide

/-- C2 amended: when the user chooses a feedback option, the resume request
carries the same thread id, and its feedback field is exactly the JSON
string with a feedbackText field holding the chosen text and an
originalLocation field holding the state's search location (rather than the
bare chosen text); for option and location texts that JSON serialization
leaves unchanged, the chosen text is embedded verbatim. -/
theorem c2_feedback_request_amended :
    ∀ (s : RestaurantFinderAgentState) (threadId runId option : String),
      plainString option → plainString s.search.location →
      (mkResumeRequest threadId runId
          (onClickRespondPayload s option)).thread_id = threadId ∧
      (mkResumeRequest threadId runId
          (onClickRespondPayload s option)).feedback =
        some ("\x7b\"feedbackText\":\"" ++ option ++
              "\",\"originalLocation\":\"" ++ s.search.location ++ "\"\x7d") := by
  intro s threadId runId option hopt hloc
  refine ⟨rfl, ?_⟩
  simp only [mkResumeRequest, onClickRespondPayload, feedbackPayload,
    jsonEscape_plain option hopt, jsonEscape_plain s.search.location hloc]

/-- Witness for C2 at the initial state and the option "More options". -/
theorem c2_feedback_request_amended_witness :
    (mkResumeRequest "t1" "r2"
        (onClickRespondPayload initialAgentState "More options")).thread_id =
      "t1" ∧
    (mkResumeRequest "t1" "r2"
        (onClickRespondPayload initialAgentState "More options")).feedback =
      some "\x7b\"feedbackText\":\"More options\",\"originalLocation\":\"\"\x7d" := by
  have h := c2_feedback_request_amended initialAgentState "t1" "r2"
    "More options" (by decide) (by decide)
  exact ⟨h.1, h.2.trans (by rfl)⟩
